import Mathlib

/-!
Verification of the Crous-listing notifier (`crous_bot.py`).

The program is embedded shallowly: the HTML page is modelled as the data the
scraper actually inspects (the optional "no results" heading text and the list
of listing cards, each card carrying its optional sub-element texts), the
snapshot file as an explicit state value, and the two effectful calls (HTTP
fetch, Telegram delivery) as result values passed into the run function.
-/

/-- Set of characters escaped by `escape_markdown` (the regex character class
built from the raw Python string made of underscore, star, backslash, square
brackets, parentheses, tilde, backtick, greater-than, hash, plus, minus,
equals, pipe, braces, dot, bang; `re.escape` makes every one of them literal). -/
def escapeChars : List Char :=
  ['_', '*', '\\', '[', ']', '(', ')', '~', Char.ofNat 96, '>', '#',
   '+', '-', '=', '|', Char.ofNat 123, Char.ofNat 125, '.', '!']

/-- One character's image under `escape_markdown`: special characters gain a
preceding backslash, others pass through. -/
def escChar (c : Char) : List Char :=
  if c ∈ escapeChars then ['\\', c] else [c]

/-- `escape_markdown(text)`: `re.sub` replaces each occurrence of a character
of the class with a backslash followed by that character; character by
character this is exactly `escChar`. -/
def escape_markdown (text : String) : String :=
  String.mk (text.data.flatMap escChar)

/-- Python-style whitespace test for `str.strip` (the ASCII whitespace
characters; the source strings never carry the rarer Unicode spaces). -/
def pyIsSpace (c : Char) : Bool :=
  c = ' ' || c = '\t' || c = '\n' || c = '\r' || c = '\x0b' || c = '\x0c'

/-- `text.strip()`: drop whitespace from both ends. -/
def pyStrip (s : String) : String :=
  String.mk (((s.data.dropWhile pyIsSpace).reverse.dropWhile pyIsSpace).reverse)

/-- `html.unescape`, modelled for the four XML entities; the stdlib decodes
further named references, which no text in this development exercises. -/
def htmlUnescapeAux : List Char → List Char
  | [] => []
  | '&' :: 'a' :: 'm' :: 'p' :: ';' :: rest => '&' :: htmlUnescapeAux rest
  | '&' :: 'l' :: 't' :: ';' :: rest => '<' :: htmlUnescapeAux rest
  | '&' :: 'g' :: 't' :: ';' :: rest => '>' :: htmlUnescapeAux rest
  | '&' :: 'q' :: 'u' :: 'o' :: 't' :: ';' :: rest => '"' :: htmlUnescapeAux rest
  | c :: rest => c :: htmlUnescapeAux rest

/-- `html.unescape(s)` on the character list of a string. -/
def htmlUnescape (s : String) : String :=
  String.mk (htmlUnescapeAux s.data)

/-- `clean_text(text)`: falsy input (absent or empty) yields "Unknown",
otherwise the text is stripped and entity-decoded. -/
def clean_text (text : Option String) : String :=
  match text with
  | some t => if t = "" then "Unknown" else htmlUnescape (pyStrip t)
  | none => "Unknown"

/-- A listing record as built by the scraper and stored in the snapshot. -/
structure Listing where
  id : String
  title : String
  location : String
  price : String
  link : String
deriving DecidableEq

/-- One listing card of the results grid, reduced to the sub-elements the
scraper reads: the optional `h3.fr-card__title` text, the optional anchor
`href`, the optional `p.fr-card__desc` text and the optional `p.fr-badge`
text. -/
structure Card where
  title_tag : Option String
  href : Option String
  location_tag : Option String
  price_tag : Option String
deriving DecidableEq

/-- The fixed base prepended to every extracted href. -/
def CROUS_BASE : String := "https://trouverunlogement.lescrous.fr"

/-- The per-card body of the extraction loop (lines 93-117 of the source):
each sub-element defaults to its sentinel when absent, the link is the base
string followed by the raw href, and the id is the f-string
`f"\x7btitle\x7d-\x7blink\x7d"`, i.e. title, a hyphen, then link. -/
def extract_listing (card : Card) : Listing :=
  let title := match card.title_tag with
    | some t => clean_text (some t)
    | none => "Unknown Title"
  let link := match card.href with
    | some h => CROUS_BASE ++ h
    | none => "No Link"
  let location := match card.location_tag with
    | some t => clean_text (some t)
    | none => "Unknown Location"
  let price := match card.price_tag with
    | some t => clean_text (some t)
    | none => "No Price Info"
  { id := title ++ "-" ++ link
    title := title
    location := location
    price := price
    link := link }

/-- The snapshot file `previous_listings.json`: absent, unparsable, or a
stored listing list. -/
inductive SnapshotFile where
  | absent
  | malformed
  | stored (listings : List Listing)
deriving DecidableEq

/-- `load_previous_listings()`: the parsed list, with `FileNotFoundError` and
`json.JSONDecodeError` both caught and turned into the empty list. -/
def load_previous_listings : SnapshotFile → List Listing
  | .stored listings => listings
  | .absent => []
  | .malformed => []

/-- `save_seen_listings(listings)`: overwrite the file with the given list. -/
def save_seen_listings (listings : List Listing) (_file : SnapshotFile) : SnapshotFile :=
  .stored listings

/-- Substring occurrence on character lists (haystack first), the model of
Python's `in` on strings. -/
def containsSub : List Char → List Char → Bool
  | [], needle => needle.isEmpty
  | c :: rest, needle => needle.isPrefixOf (c :: rest) || containsSub rest needle

/-- Python `sub in s`. -/
def pyContains (s sub : String) : Bool :=
  containsSub s.data sub.data

/-- The fetched page, reduced to what the scraper inspects: the text of the
`h2.SearchResults-desktop` heading when that selector matches, and the list of
cards matched by the grid selector. -/
structure Page where
  noResultsHeading : Option String
  cards : List Card
deriving DecidableEq

/-- Lines 77-78: the marker fires when the heading exists and its text
contains the phrase "Aucun logement trouvé". -/
def no_results_found (page : Page) : Bool :=
  match page.noResultsHeading with
  | some t => pyContains t "Aucun logement trouvé"
  | none => false

/-- The comparison loop (lines 125-128): the flag is set as soon as some
current listing's id matches no previous id. -/
def has_new_listings (new_state previous_state : List Listing) : Bool :=
  new_state.any (fun n => !(previous_state.any (fun p => decide (p.id = n.id))))

/-- The notification text built on lines 132-139. -/
def format_message (new_state : List Listing) : String :=
  "📢 *New Crous Listings Found:* " ++ toString new_state.length ++ " available\n\n"
    ++ String.join (new_state.map (fun l =>
      "🏡 *" ++ escape_markdown l.title ++ "*\n"
        ++ "📍 " ++ escape_markdown l.location ++ "\n"
        ++ "💰 " ++ escape_markdown l.price ++ "\n"
        ++ "🔗 [View Crous](" ++ escape_markdown l.link ++ ")\n\n"))

/-- Outcome of `send_telegram_message`: the `try`/`except` either reports
success or logs the delivery error; no exception escapes. -/
inductive SendOutcome where
  | success
  | failureLogged (err : String)
deriving DecidableEq

/-- `send_telegram_message(bot, message)` with the underlying API call's
outcome passed in: a raised delivery error is caught and logged. -/
def send_telegram_message (delivery : Except String Unit) : SendOutcome :=
  match delivery with
  | .ok _ => .success
  | .error e => .failureLogged e

/-- What a run leaves behind: the snapshot file, the notification message when
one was sent, and the delivery outcome when a send was attempted. -/
structure RunResult where
  file : SnapshotFile
  notified : Option String
  sendOutcome : Option SendOutcome
deriving DecidableEq

/-- `scrape_crous_listings()` as a function of the fetch result, the delivery
outcome and the snapshot file. A fetch exception returns at line 72; the
"no results" marker returns at line 80; an empty card selection returns at
line 87; otherwise the cards are extracted, the previous snapshot loaded and
compared, a notification sent only when a new id was detected, and the new
state saved unconditionally at line 148. -/
def scrape_crous_listings (fetch : Except String Page) (delivery : Except String Unit)
    (file : SnapshotFile) : RunResult :=
  match fetch with
  | .error _ => { file := file, notified := none, sendOutcome := none }
  | .ok page =>
    if no_results_found page then
      { file := file, notified := none, sendOutcome := none }
    else if page.cards.isEmpty then
      { file := file, notified := none, sendOutcome := none }
    else
      let new_state := page.cards.map extract_listing
      let previous_state := load_previous_listings file
      let new_listings_detected := has_new_listings new_state previous_state
      if new_listings_detected then
        let message := format_message new_state
        let outcome := send_telegram_message delivery
        { file := save_seen_listings new_state file
          notified := some message
          sendOutcome := some outcome }
      else
        { file := save_seen_listings new_state file
          notified := none
          sendOutcome := none }


/-! Sample inputs used by witnesses and counterexamples. -/

/-- A sample card with every sub-element present. -/
def cardA : Card := ⟨some "Studio A", some "/accommodations/1", some "Lyon 7", some "350 EUR"⟩

/-- A card with the same title and href as `cardA` but different location and
no price, i.e. the same listing observed on another run. -/
def cardA2 : Card := ⟨some "Studio A", some "/accommodations/1", some "Lyon 3", none⟩

/-- A second, distinct sample card. -/
def cardC : Card := ⟨some "Studio C", some "/accommodations/3", some "Lyon 1", some "400 EUR"⟩

/-- A card with every sub-element absent. -/
def cardEmpty : Card := ⟨none, none, none, none⟩

/-- A card whose anchor carries a root-relative href. -/
def cardRel : Card := ⟨some "Res", some "/residence/123", none, none⟩

/-- A card whose anchor carries an already absolute href. -/
def cardAbs : Card := ⟨some "Res", some "https://example.com/r/9", none, none⟩

/-- A page carrying the "no listings found" marker. -/
def pageNoResults : Page := ⟨some "Aucun logement trouvé", []⟩

/-- A page without the marker and with zero cards. -/
def pageEmptyCards : Page := ⟨none, []⟩

/-- A page whose cards extract to the listings of `cardA` and `cardC`. -/
def pageAC : Page := ⟨none, [cardA, cardC]⟩

/-! Helper lemmas shared by the claim theorems. -/

/-- The id built by the extraction loop is always title, hyphen, link. -/
theorem extract_listing_id_eq (c : Card) :
    (extract_listing c).id = (extract_listing c).title ++ "-" ++ (extract_listing c).link := rfl

/-- The backslash is itself one of the escaped characters. -/
theorem backslash_mem_escapeChars : ('\\' : Char) ∈ escapeChars := by decide

/-- Composing the per-character escape with itself: an escaped special
character gains two further backslashes (the inserted backslash is special and
is escaped again, and the character is escaped again). -/
theorem flatMap_escChar_escChar (l : List Char) :
    (l.flatMap escChar).flatMap escChar
      = l.flatMap (fun c => if c ∈ escapeChars then ['\\', '\\', '\\', c] else [c]) := by
  induction l with
  | nil => rfl
  | cons c rest ih =>
    by_cases hc : c ∈ escapeChars
    · simp only [List.flatMap_cons, List.flatMap_append, ih, escChar, if_pos hc,
        if_pos backslash_mem_escapeChars]
      simp
    · simp only [List.flatMap_cons, List.flatMap_append, ih, escChar, if_neg hc]
      simp [if_neg hc]

/-! The claims. -/

/-- C1 (counterexample). The claim predicts that a run seeing the "no
listings" marker still overwrites the snapshot with the empty list: on a page
carrying the marker (and likewise on a page with zero cards), with a
previously non-empty snapshot, the code instead leaves the snapshot untouched
and never stores the empty list. -/
theorem snapshot_kept_on_marker_or_empty :
    (scrape_crous_listings (.ok pageNoResults) (.ok ()) (.stored [extract_listing cardA])).file
        = .stored [extract_listing cardA]
    ∧ (scrape_crous_listings (.ok pageNoResults) (.ok ()) (.stored [extract_listing cardA])).file
        ≠ .stored ([] : List Listing)
    ∧ (scrape_crous_listings (.ok pageEmptyCards) (.ok ()) (.stored [extract_listing cardA])).file
        = .stored [extract_listing cardA]
    ∧ (scrape_crous_listings (.ok pageEmptyCards) (.ok ()) (.stored [extract_listing cardA])).file
        ≠ .stored ([] : List Listing) := by
  refine ⟨rfl, by decide, rfl, by decide⟩

/-- C1 (amended). When the fetched page carries the "no listings found"
marker, or the card selection is empty, `scrape_crous_listings` returns
early (lines 80 and 87): the snapshot file is left unchanged — the previous
snapshot is never overwritten with an empty list — and no notification is
attempted. -/
theorem run_aborts_on_marker_or_empty (page : Page) (d : Except String Unit)
    (file : SnapshotFile)
    (h : no_results_found page = true ∨ page.cards.isEmpty = true) :
    scrape_crous_listings (.ok page) d file
      = { file := file, notified := none, sendOutcome := none } := by
  rcases h with h | h
  · simp [scrape_crous_listings, h]
  · cases hm : no_results_found page <;> simp [scrape_crous_listings, hm, h]

/-- C1 (amended, witness). -/
theorem run_aborts_on_marker_or_empty_witness :
    (no_results_found pageNoResults = true ∨ pageNoResults.cards.isEmpty = true)
    ∧ scrape_crous_listings (.ok pageNoResults) (.ok ()) (.stored [extract_listing cardA])
        = { file := .stored [extract_listing cardA], notified := none, sendOutcome := none } :=
  ⟨Or.inl (by decide),
   run_aborts_on_marker_or_empty pageNoResults (.ok ()) (.stored [extract_listing cardA])
     (Or.inl (by decide))⟩

/-- C2. On the successful path (no marker, at least one card): `has_new` holds
exactly when some current listing's id is absent from the previous ids; a
notification is produced exactly when `has_new` holds; and the persisted
snapshot is exactly the currently extracted list, a full replacement of the
previous snapshot. -/
theorem diff_notify_and_full_replacement (page : Page) (d : Except String Unit)
    (file : SnapshotFile)
    (hmark : no_results_found page = false)
    (hcards : page.cards.isEmpty = false) :
    (has_new_listings (page.cards.map extract_listing) (load_previous_listings file) = true
      ↔ ∃ n ∈ page.cards.map extract_listing,
          ∀ p ∈ load_previous_listings file, p.id ≠ n.id)
    ∧ ((scrape_crous_listings (.ok page) d file).notified.isSome = true
      ↔ has_new_listings (page.cards.map extract_listing) (load_previous_listings file) = true)
    ∧ (scrape_crous_listings (.ok page) d file).file
        = .stored (page.cards.map extract_listing) := by
  refine ⟨?_, ?_, ?_⟩
  · simp [has_new_listings, List.any_eq_true]
  · cases hnew : has_new_listings (page.cards.map extract_listing) (load_previous_listings file) <;>
      simp [scrape_crous_listings, hmark, hcards, hnew]
  · cases hnew : has_new_listings (page.cards.map extract_listing) (load_previous_listings file) <;>
      simp [scrape_crous_listings, hmark, hcards, hnew, save_seen_listings]

/-- C2 (witness): previous snapshot `[A]`, current cards `[A, C]`. -/
theorem diff_notify_and_full_replacement_witness :
    no_results_found pageAC = false
    ∧ pageAC.cards.isEmpty = false
    ∧ ((has_new_listings (pageAC.cards.map extract_listing)
          (load_previous_listings (.stored [extract_listing cardA])) = true
        ↔ ∃ n ∈ pageAC.cards.map extract_listing,
            ∀ p ∈ load_previous_listings (.stored [extract_listing cardA]), p.id ≠ n.id)
      ∧ ((scrape_crous_listings (.ok pageAC) (.ok ())
            (.stored [extract_listing cardA])).notified.isSome = true
        ↔ has_new_listings (pageAC.cards.map extract_listing)
            (load_previous_listings (.stored [extract_listing cardA])) = true)
      ∧ (scrape_crous_listings (.ok pageAC) (.ok ()) (.stored [extract_listing cardA])).file
          = .stored (pageAC.cards.map extract_listing)) :=
  ⟨rfl, rfl,
   diff_notify_and_full_replacement pageAC (.ok ()) (.stored [extract_listing cardA]) rfl rfl⟩

/-- C3. A failed fetch (the `requests` call raised) returns at line 72: the
snapshot file is exactly what it was, no notification text is built and no
send is attempted. -/
theorem fetch_failure_aborts (e : String) (d : Except String Unit) (file : SnapshotFile) :
    scrape_crous_listings (.error e) d file
      = { file := file, notified := none, sendOutcome := none } := rfl

/-- C4 (counterexample). The id is not the plain concatenation of title and
link: the f-string inserts a hyphen between them. -/
theorem listing_id_not_plain_concat :
    (extract_listing cardA).id
      ≠ (extract_listing cardA).title ++ (extract_listing cardA).link := by decide

/-- C4 (amended). The id is the hyphen-separated concatenation
title ++ "-" ++ link, and it is deterministic: two cards extracting to
byte-identical title and link (even with other fields different) yield the
same id. -/
theorem listing_id_hyphen_concat_deterministic (c₁ c₂ : Card)
    (ht : (extract_listing c₁).title = (extract_listing c₂).title)
    (hl : (extract_listing c₁).link = (extract_listing c₂).link) :
    (extract_listing c₁).id
        = (extract_listing c₁).title ++ "-" ++ (extract_listing c₁).link
    ∧ (extract_listing c₁).id = (extract_listing c₂).id := by
  refine ⟨rfl, ?_⟩
  rw [extract_listing_id_eq c₁, extract_listing_id_eq c₂, ht, hl]

/-- C4 (amended, witness): `cardA` and `cardA2` share title and href but
differ in location and price, and get the same id. -/
theorem listing_id_hyphen_concat_deterministic_witness :
    (extract_listing cardA).title = (extract_listing cardA2).title
    ∧ (extract_listing cardA).link = (extract_listing cardA2).link
    ∧ ((extract_listing cardA).id
          = (extract_listing cardA).title ++ "-" ++ (extract_listing cardA).link
      ∧ (extract_listing cardA).id = (extract_listing cardA2).id) :=
  ⟨by decide, by decide,
   listing_id_hyphen_concat_deterministic cardA cardA2 (by decide) (by decide)⟩

/-- C5 (counterexample). `escape_markdown` is not idempotent: the backslash it
inserts is itself in the escaped class, so a second application escapes it
again ("." becomes "\.", which becomes "\\\."). -/
theorem escape_markdown_not_idempotent_dot :
    escape_markdown (escape_markdown ".") ≠ escape_markdown "." := by decide

/-- C5 (amended). Applying `escape_markdown` twice double-escapes every
special character: each special character c of the input comes out as three
backslashes followed by c (the first pass yields backslash-c, the second
escapes both), while other characters pass through; so the function is
idempotent only on texts with no special characters. -/
theorem escape_markdown_twice_triple_escapes (t : String) :
    escape_markdown (escape_markdown t)
      = String.mk (t.data.flatMap
          (fun c => if c ∈ escapeChars then ['\\', '\\', '\\', c] else [c])) := by
  cases t with
  | mk l =>
    show String.mk ((l.flatMap escChar).flatMap escChar) = _
    rw [flatMap_escChar_escChar l]

/-- C6. `load_previous_listings` yields the empty list when the snapshot file
is absent or holds malformed JSON (both exceptions are caught), and otherwise
yields the stored listing list; it never raises. -/
theorem load_previous_listings_spec :
    load_previous_listings .absent = []
    ∧ load_previous_listings .malformed = []
    ∧ ∀ l : List Listing, load_previous_listings (.stored l) = l :=
  ⟨rfl, rfl, fun _ => rfl⟩

/-- C7. Card extraction is total and defaults every missing sub-element: an
absent title heading gives "Unknown Title", an absent location paragraph gives
"Unknown Location", an absent price badge gives "No Price Info", and an absent
anchor gives the link "No Link". -/
theorem extraction_defaults_on_missing (c : Card) :
    (c.title_tag = none → (extract_listing c).title = "Unknown Title")
    ∧ (c.location_tag = none → (extract_listing c).location = "Unknown Location")
    ∧ (c.price_tag = none → (extract_listing c).price = "No Price Info")
    ∧ (c.href = none → (extract_listing c).link = "No Link") := by
  refine ⟨fun hh => ?_, fun hh => ?_, fun hh => ?_, fun hh => ?_⟩ <;>
    simp [extract_listing, hh]

/-- C7 (witness): the card with every sub-element absent. -/
theorem extraction_defaults_on_missing_witness :
    cardEmpty.title_tag = none
    ∧ (extract_listing cardEmpty).title = "Unknown Title"
    ∧ (extract_listing cardEmpty).location = "Unknown Location"
    ∧ (extract_listing cardEmpty).price = "No Price Info"
    ∧ (extract_listing cardEmpty).link = "No Link" :=
  ⟨rfl, (extraction_defaults_on_missing cardEmpty).1 rfl,
   (extraction_defaults_on_missing cardEmpty).2.1 rfl,
   (extraction_defaults_on_missing cardEmpty).2.2.1 rfl,
   (extraction_defaults_on_missing cardEmpty).2.2.2 rfl⟩

/-- C8. When new listings were detected and the send raises, the exception is
caught and logged inside `send_telegram_message` (the run does not crash: the
run function still returns a result whose send outcome records the logged
failure), the snapshot is still overwritten with the current list, and the
file is the same as it would be had delivery succeeded. -/
theorem delivery_failure_logged_snapshot_saved (page : Page) (e : String)
    (file : SnapshotFile)
    (hmark : no_results_found page = false)
    (hcards : page.cards.isEmpty = false)
    (hnew : has_new_listings (page.cards.map extract_listing)
        (load_previous_listings file) = true) :
    (scrape_crous_listings (.ok page) (.error e) file).file
        = .stored (page.cards.map extract_listing)
    ∧ (scrape_crous_listings (.ok page) (.error e) file).sendOutcome
        = some (.failureLogged e)
    ∧ (scrape_crous_listings (.ok page) (.error e) file).notified.isSome = true
    ∧ (scrape_crous_listings (.ok page) (.error e) file).file
        = (scrape_crous_listings (.ok page) (.ok ()) file).file := by
  simp [scrape_crous_listings, hmark, hcards, hnew, send_telegram_message, save_seen_listings]

/-- C8 (witness): a failing send on a run over `pageAC` starting from an
absent snapshot file. -/
theorem delivery_failure_logged_snapshot_saved_witness :
    no_results_found pageAC = false
    ∧ pageAC.cards.isEmpty = false
    ∧ has_new_listings (pageAC.cards.map extract_listing) (load_previous_listings .absent) = true
    ∧ ((scrape_crous_listings (.ok pageAC) (.error "api down") .absent).file
          = .stored (pageAC.cards.map extract_listing)
      ∧ (scrape_crous_listings (.ok pageAC) (.error "api down") .absent).sendOutcome
          = some (.failureLogged "api down")
      ∧ (scrape_crous_listings (.ok pageAC) (.error "api down") .absent).notified.isSome = true
      ∧ (scrape_crous_listings (.ok pageAC) (.error "api down") .absent).file
          = (scrape_crous_listings (.ok pageAC) (.ok ()) .absent).file) :=
  ⟨rfl, rfl, by decide,
   delivery_failure_logged_snapshot_saved pageAC "api down" .absent rfl rfl (by decide)⟩

/-- A root-relative href: a path reference beginning with a single slash (a
double slash would be a protocol-relative reference). Resolving such a
reference against the bare origin `CROUS_BASE` is exactly string
concatenation. -/
def is_root_relative (h : String) : Bool :=
  match h.data with
  | '/' :: '/' :: _ => false
  | '/' :: _ => true
  | _ => false

/-- C9. For a card whose anchor carries a root-relative href, the extracted
link is the href resolved against the fixed base origin, i.e. the origin
followed by the path. -/
theorem relative_href_resolved_against_base (c : Card) (h : String)
    (hh : c.href = some h) (_hrel : is_root_relative h = true) :
    (extract_listing c).link = "https://trouverunlogement.lescrous.fr" ++ h := by
  simp [extract_listing, hh, CROUS_BASE]

/-- C9 (witness): href "/residence/123" resolves to
"https://trouverunlogement.lescrous.fr/residence/123". -/
theorem relative_href_resolved_against_base_witness :
    cardRel.href = some "/residence/123"
    ∧ is_root_relative "/residence/123" = true
    ∧ (extract_listing cardRel).link
        = "https://trouverunlogement.lescrous.fr/residence/123" := by
  refine ⟨rfl, by decide, ?_⟩
  rw [relative_href_resolved_against_base cardRel "/residence/123" rfl (by decide)]
  decide

/-- C10. The extracted link is the fixed base string prepended to the raw href
unconditionally, whatever the href's shape. -/
theorem href_prepended_unconditionally (c : Card) (h : String)
    (hh : c.href = some h) :
    (extract_listing c).link = "https://trouverunlogement.lescrous.fr" ++ h := by
  simp [extract_listing, hh, CROUS_BASE]

/-- C10 (witness): an already absolute href yields the malformed double-origin
link. -/
theorem href_prepended_unconditionally_witness :
    cardAbs.href = some "https://example.com/r/9"
    ∧ (extract_listing cardAbs).link
        = "https://trouverunlogement.lescrous.frhttps://example.com/r/9" := by
  refine ⟨rfl, ?_⟩
  rw [href_prepended_unconditionally cardAbs "https://example.com/r/9" rfl]
  decide
